import Mathlib

/-!
Verification development for the strategic-plan / action-plan synchronization
core: entity matching and scoring (entity_extractor.py), score fusion
(scoring_engine.py, scoring_engine_llm.py), gap and finding detection,
proposal impact simulation and proposal acceptance (agentic_ai.py).

Numeric conventions: Python ints that hold 0-100 similarity scores are
embedded as Nat; Python floats carrying exact decimal constants (weights,
scores, budgets) are embedded as rationals; the impact simulator, whose
diminishing-returns factor is a real-exponent power, is embedded over the
reals.  The external fuzzywuzzy ratio functions are parameters of the
embedding (they are third-party library calls, not repository code).
-/

namespace StratSync

/-! ## Executable string normalization

Python's `str.lower()` and `str.strip()` are modelled charwise over the
string's character list (Lean's own `String.toLower`/`trim` are defined by
well-founded recursion on byte positions and do not reduce, so concrete
witnesses could not be evaluated through them). -/

/-- Python `str.lower()`: lowercase every character. -/
def strLower (s : String) : String := ⟨s.data.map Char.toLower⟩

/-- Python `str.strip()`: drop whitespace from both ends. -/
def strTrim (s : String) : String :=
  ⟨((s.data.dropWhile Char.isWhitespace).reverse.dropWhile Char.isWhitespace).reverse⟩

/-! ## Data model: entities and entity matches (entity_extractor.py) -/

/-- `Entity` dataclass of entity_extractor.py. -/
structure Entity where
  text : String
  etype : String
  value : Option String := none
  source_section : String := ""
  source_title : String := ""
deriving DecidableEq, Repr

/-- The two fuzzywuzzy similarity ratios used by `EntityExtractor.fuzzy_match`;
they are external library functions, so the embedding is parametric in them.
Each returns an integer score 0-100 (embedded as Nat). -/
structure FuzzyScorers where
  tokenSortFn : String → String → Nat
  substrFn : String → String → Nat

/-- The non-exact score of `EntityExtractor.fuzzy_match`: the larger of the
token-sort ratio and the substring (partial) ratio, on normalized texts. -/
def rawScore (fs : FuzzyScorers) (t1 t2 : String) : Nat :=
  max (fs.tokenSortFn (strTrim (strLower t1)) (strTrim (strLower t2)))
    (fs.substrFn (strTrim (strLower t1)) (strTrim (strLower t2)))

/-- `EntityExtractor.fuzzy_match`: exact on normalized equality (score 100),
otherwise the max of the two ratios, classified into bands. -/
def fuzzyMatch (fs : FuzzyScorers) (thr : Nat) (t1 t2 : String) : Nat × String :=
  if strTrim (strLower t1) = strTrim (strLower t2) then (100, "exact")
  else if rawScore fs t1 t2 ≥ 95 then (rawScore fs t1 t2, "exact")
  else if rawScore fs t1 t2 ≥ thr then (rawScore fs t1 t2, "fuzzy")
  else if rawScore fs t1 t2 ≥ 60 then (rawScore fs t1 t2, "partial")
  else (rawScore fs t1 t2, "no_match")

/-- `EntityMatch` dataclass.  The Python loop initializes `best_match = None`,
so the action side is an Option. -/
structure EntityMatch where
  strategic_entity : Entity
  action_entity : Option Entity
  match_score : Nat
  match_type : String
deriving DecidableEq, Repr

/-- One step of the best-candidate scan in `EntityExtractor.match_entities`:
update the running (best_score, best_match, best_type) when the candidate
scores strictly higher. -/
def bestScanStep (g : Entity → Nat × String) (acc : Nat × Option Entity × String)
    (a : Entity) : Nat × Option Entity × String :=
  let r := g a
  if r.1 > acc.1 then (r.1, some a, r.2) else acc

/-- The inner loop of `match_entities` over the action entities of one type,
starting from (0, None, "no_match"). -/
def bestCandidate (fs : FuzzyScorers) (thr : Nat) (sp : Entity) (aps : List Entity) :
    Nat × Option Entity × String :=
  aps.foldl (bestScanStep (fun ap => fuzzyMatch fs thr sp.text ap.text)) (0, none, "no_match")

/-- Per-type matching: for each strategic entity keep the single best candidate
and emit an `EntityMatch` only when its score reaches the fuzzy threshold. -/
def matchesForLists (fs : FuzzyScorers) (thr : Nat) (sps aps : List Entity) :
    List EntityMatch :=
  sps.filterMap (fun sp =>
    let b := bestCandidate fs thr sp aps
    if b.1 ≥ thr then some ⟨sp, b.2.1, b.1, b.2.2⟩ else none)

/-- The body of the outer loop of `match_entities` for one strategic entity
type: skipped (contributes nothing) when the action map has no such type. -/
def typeMatches (fs : FuzzyScorers) (thr : Nat) (ae : List (String × List Entity))
    (p : String × List Entity) : List EntityMatch :=
  match List.lookup p.1 ae with
  | none => []
  | some aps => matchesForLists fs thr p.2 aps

/-- `EntityExtractor.match_entities`: iterate strategic entity types in order,
appending the per-type matches. -/
def matchEntities (fs : FuzzyScorers) (thr : Nat)
    (se ae : List (String × List Entity)) : List EntityMatch :=
  se.foldl (fun acc p => acc ++ typeMatches fs thr ae p) []

/-- The maximum of a score function over a candidate list (0 when empty). -/
def maxScoreOf (g : Entity → Nat × String) (l : List Entity) : Nat :=
  (l.map (fun a => (g a).1)).foldr max 0

/-- Spec-side restatement for the refinement claim about `match_entities`:
each strategic entity is paired with the first action entity, in list order,
that attains the maximum similarity score, and an EntityMatch is emitted only
when that best score is at least the fuzzy threshold. -/
def specMatchesForLists (fs : FuzzyScorers) (thr : Nat) (sps aps : List Entity) :
    List EntityMatch :=
  sps.filterMap (fun sp =>
    let g := fun ap => fuzzyMatch fs thr sp.text ap.text
    let m := maxScoreOf g aps
    if thr ≤ m then
      match aps.find? (fun ap => (g ap).1 == m) with
      | some a => some ⟨sp, some a, m, (g a).2⟩
      | none => none
    else none)

/-- Spec-side per-type step mirroring `typeMatches`. -/
def specTypeMatches (fs : FuzzyScorers) (thr : Nat) (ae : List (String × List Entity))
    (p : String × List Entity) : List EntityMatch :=
  match List.lookup p.1 ae with
  | none => []
  | some aps => specMatchesForLists fs thr p.2 aps

/-- Spec-side restatement of the full matcher. -/
def specMatchEntities (fs : FuzzyScorers) (thr : Nat)
    (se ae : List (String × List Entity)) : List EntityMatch :=
  se.foldl (fun acc p => acc ++ specTypeMatches fs thr ae p) []

/-! ## Entity scoring (EntityExtractor.calculate_entity_score) -/

/-- The static `entity_weights` table (default 1.0 for unknown types). -/
def entityWeight (t : String) : ℚ :=
  if t = "METRIC_TARGET" then 3
  else if t = "KPI" then 3
  else if t = "BUDGET" then 5/2
  else if t = "TIMELINE" then 2
  else if t = "GOAL" then 3/2
  else if t = "INITIATIVE" then 3/2
  else 1

/-- The `matched_entity_ids` set: lower-cased strategic texts of the matches. -/
def matchedIds (ms : List EntityMatch) : List String :=
  ms.map (fun m => strLower m.strategic_entity.text)

/-- `total_weighted_entities`: sum of type weights over all strategic entities. -/
def totalWeighted (se : List (String × List Entity)) : ℚ :=
  (se.map (fun p => (p.2.map (fun _ => entityWeight p.1)).sum)).sum

/-- `matched_weighted_entities`: sum of type weights over strategic entities
whose lower-cased text occurs among the matched ids. -/
def matchedWeighted (se : List (String × List Entity)) (ids : List String) : ℚ :=
  (se.map (fun p =>
    (p.2.map (fun e => if strLower e.text ∈ ids then entityWeight p.1 else 0)).sum)).sum

/-- The fields of `EntityAnalysisResult` that the analysis depends on. -/
structure EntityAnalysisResult where
  overall_score : ℚ
  total_strategic_entities : Nat
  matched_entities : Nat
  unmatched_entities : Nat
  match_rate : ℚ
  entity_matches : List EntityMatch
deriving DecidableEq, Repr

/-- `EntityExtractor.calculate_entity_score`: weighted match rate, 0 when the
weighted total is 0. -/
def calculateEntityScore (se ae : List (String × List Entity))
    (ms : List EntityMatch) : EntityAnalysisResult :=
  let _ := ae
  let ids := matchedIds ms
  let tw := totalWeighted se
  let mw := matchedWeighted se ids
  let rate : ℚ := if 0 < tw then mw / tw * 100 else 0
  let totalSp := (se.map (fun p => p.2.length)).sum
  let matchedCount := ids.dedup.length
  { overall_score := rate
    total_strategic_entities := totalSp
    matched_entities := matchedCount
    unmatched_entities := totalSp - matchedCount
    match_rate := rate
    entity_matches := ms }

/-! ## Score fusion engine (scoring_engine.py, scoring_engine_llm.py) -/

/-- The weight/threshold configuration of `ScoringEngine`. -/
structure ScoringEngine where
  embedding_weight : ℚ
  entity_weight : ℚ
  strong_support_threshold : ℚ
deriving DecidableEq, Repr

/-- `ScoringEngine.__init__`: raises ValueError when the weights do not sum to
1.0 within tolerance 0.01. -/
def scoringEngineInit (w1 w2 thr : ℚ) : Except String ScoringEngine :=
  if |w1 + w2 - 1| > 1/100 then Except.error "Weights must sum to 1.0"
  else Except.ok ⟨w1, w2, thr⟩

/-- `LLMScoringEngine.__init__` of scoring_engine_llm.py: the identical weight
validation (the API key only configures the external LLM client). -/
def llmScoringEngineInit (w1 w2 thr : ℚ) : Except String ScoringEngine :=
  if |w1 + w2 - 1| > 1/100 then Except.error "Weights must sum to 1.0"
  else Except.ok ⟨w1, w2, thr⟩

/-- One row of `objective_alignment['top_matches']`. -/
structure TopAction where
  action_id : String
  action_title : String
  similarity_score : ℚ
  rank : Nat
deriving DecidableEq, Repr

/-- One entry of `embedding_results['objective_alignments']`. -/
structure ObjAlignment where
  objective_id : String
  objective_title : String
  best_match_score : ℚ
  has_support : Bool
  top_matches : List TopAction
deriving DecidableEq, Repr

/-- The strategic/action sides of a saved entity-match row
(`entity_results['entity_matches']` as written by `save_results`). -/
structure SavedEntityRef where
  text : String
  etype : String
  source : String
deriving DecidableEq, Repr

/-- A saved entity-match row as consumed by `_analyze_objectives`. -/
structure SavedMatch where
  strategic_entity : SavedEntityRef
  action_entity : SavedEntityRef
  match_score : ℚ
  match_type : String
deriving DecidableEq, Repr

/-- The three gap labels `_analyze_objectives` can attach (the Python strings
carry formatted prose; only their identity matters downstream). -/
inductive Gap where
  | lowSemantic
  | noEntityMatch
  | belowThreshold
deriving DecidableEq, Repr

/-- `ObjectiveSynchronization` dataclass. -/
structure ObjSync where
  objective_id : String
  objective_title : String
  embedding_score : ℚ
  entity_matches : Nat
  entity_score : ℚ
  combined_score : ℚ
  top_matching_actions : List TopAction
  has_strong_support : Bool
  gaps : List Gap
deriving DecidableEq, Repr

/-- Insert a saved match into the by-objective grouping dict
(`entity_matches_by_obj` in `_analyze_objectives`). -/
def groupInsert (m : List (String × List SavedMatch)) (k : String) (v : SavedMatch) :
    List (String × List SavedMatch) :=
  match m with
  | [] => [(k, [v])]
  | p :: rest => if p.1 = k then (p.1, p.2 ++ [v]) :: rest else p :: groupInsert rest k v

/-- The grouping of saved matches by the strategic entity's source title. -/
def entityMatchesByObj (ms : List SavedMatch) : List (String × List SavedMatch) :=
  ms.foldl (fun m mt => groupInsert m mt.strategic_entity.source mt) []

/-- The per-objective body of `ScoringEngine._analyze_objectives`. -/
def syncOf (eng : ScoringEngine) (ms : List SavedMatch) (a : ObjAlignment) : ObjSync :=
  let embeddingScore := a.best_match_score * 100
  let objMatches := (List.lookup a.objective_title (entityMatchesByObj ms)).getD []
  let cnt := objMatches.length
  let entityScore : ℚ := min ((cnt : ℚ) * 20) 100
  let combined := eng.embedding_weight * embeddingScore + eng.entity_weight * entityScore
  { objective_id := a.objective_id
    objective_title := a.objective_title
    embedding_score := embeddingScore
    entity_matches := cnt
    entity_score := entityScore
    combined_score := combined
    top_matching_actions := a.top_matches.take 3
    has_strong_support := decide (combined ≥ eng.strong_support_threshold)
    gaps :=
      (if embeddingScore < 70 then [Gap.lowSemantic] else []) ++
      (if cnt = 0 then [Gap.noEntityMatch] else []) ++
      (if a.has_support = false then [Gap.belowThreshold] else []) }

/-- `ScoringEngine._analyze_objectives`: one synchronization per alignment, in
document order. -/
def analyzeObjectives (eng : ScoringEngine) (alignments : List ObjAlignment)
    (ms : List SavedMatch) : List ObjSync :=
  alignments.map (syncOf eng ms)

/-! ## Analysis-results record consumed by agentic_ai.py -/

/-- The fields of the persisted analysis-results record that
`_identify_critical_findings` and `_simulate_impact` read. -/
structure AnalysisResults where
  overall_score : ℚ
  entity_score : ℚ
  unmatched_entities : Nat
  objective_synchronizations : List ObjSync
deriving DecidableEq, Repr

/-! ## Gap and finding detector (AgenticAI._identify_critical_findings) -/

/-- A `CriticalFinding` (prose description/evidence fields omitted; the id,
severity, title, affected objective and impact are kept). -/
structure Finding where
  id : String
  severity : String
  title : String
  affected_objective : String
  impact : String
deriving DecidableEq, Repr

/-- The critical finding emitted for an objective with combined score < 50. -/
def mkCritical (n : Nat) (o : ObjSync) : Finding :=
  { id := "critical_" ++ toString n
    severity := "critical"
    title := "Severe Misalignment: " ++ o.objective_title
    affected_objective := o.objective_title
    impact := "High - This strategic priority lacks adequate execution plan" }

/-- The high finding emitted for an objective with combined score in [50,65). -/
def mkHigh (n : Nat) (o : ObjSync) : Finding :=
  { id := "high_" ++ toString n
    severity := "high"
    title := "Weak Support: " ++ o.objective_title
    affected_objective := o.objective_title
    impact := "Medium-High - Strategic goal at risk of underdelivery" }

/-- The single entity-coverage finding emitted when more than 10 strategic
entities are unmatched. -/
def mkEntityFinding (n : Nat) : Finding :=
  { id := "entities_" ++ toString n
    severity := "high"
    title := "Significant Entity Coverage Gaps"
    affected_objective := "Multiple objectives"
    impact := "Medium - Accountability and measurement gaps across strategic plan" }

/-- First pass: criticals, threading the running finding counter. -/
def criticalPass : List ObjSync → Nat → List Finding × Nat
  | [], n => ([], n)
  | o :: os, n =>
    if o.combined_score < 50 then
      let r := criticalPass os (n + 1)
      (mkCritical (n + 1) o :: r.1, r.2)
    else criticalPass os n

/-- Second pass: weak-support highs, continuing the counter. -/
def highPass : List ObjSync → Nat → List Finding × Nat
  | [], n => ([], n)
  | o :: os, n =>
    if 50 ≤ o.combined_score ∧ o.combined_score < 65 then
      let r := highPass os (n + 1)
      (mkHigh (n + 1) o :: r.1, r.2)
    else highPass os n

/-- `severity_order` used as the sort key. -/
def severityRank (s : String) : Nat :=
  if s = "critical" then 0 else if s = "high" then 1 else if s = "medium" then 2 else 3

/-- Stable insertion by severity rank (a stable sort by a key is extensionally
unique, so this models Python's stable `list.sort`). -/
def insertByRank (f : Finding) : List Finding → List Finding
  | [] => [f]
  | g :: gs =>
    if severityRank g.severity < severityRank f.severity then g :: insertByRank f gs
    else f :: g :: gs

/-- Stable sort of the findings by severity rank. -/
def sortBySeverity : List Finding → List Finding
  | [] => []
  | f :: fs => insertByRank f (sortBySeverity fs)

/-- `AgenticAI._identify_critical_findings`: criticals, then weak-support
highs, then the entity-coverage finding, stably sorted by severity. -/
def identifyCriticalFindings (r : AnalysisResults) : List Finding :=
  let c := criticalPass r.objective_synchronizations 0
  let h := highPass r.objective_synchronizations c.2
  let e := if r.unmatched_entities > 10 then [mkEntityFinding (h.2 + 1)] else []
  sortBySeverity (c.1 ++ (h.1 ++ e))

/-- Findings numbered n+1, n+2, ... over a list of objectives (used to state
what the counter-threading passes produce). -/
def numberedFrom (mk : Nat → ObjSync → Finding) : Nat → List ObjSync → List Finding
  | _, [] => []
  | n, o :: os => mk (n + 1) o :: numberedFrom mk (n + 1) os

/-! ## Proposals (agentic_ai.py) -/

/-- `ActionProposal` dataclass. -/
structure ActionProposal where
  id : String
  priority : String
  objective_id : String
  objective_title : String
  action_title : String
  description : String
  budget_estimate : ℚ
  timeline : String
  expected_kpis : List String
  rationale : String
  expected_impact : String
  status : String
deriving DecidableEq, Repr

/-- Python's substring test `needle in hay`. -/
def containsSub (hay needle : String) : Bool :=
  decide (needle.toList <:+: hay.toList)

/-- The entity-tracking classification in `_simulate_impact`:
`obj_id == "entity_tracking" or "entity" in obj_id.lower() or "finding" in obj_id`. -/
def isEntityTracking (oid : String) : Bool :=
  oid == "entity_tracking" || containsSub (strLower oid) "entity" || containsSub oid "finding"

/-! ## Proposal impact simulator (AgenticAI._simulate_impact), over ℝ because
the diminishing-returns factor is a real-exponent power. -/

/-- Replace the value at a key in an insertion-ordered dict, appending the key
if absent. -/
def setImp : List (String × ℝ) → String → ℝ → List (String × ℝ)
  | [], k, v => [(k, v)]
  | p :: rest, k, v => if p.1 = k then (p.1, v) :: rest else p :: setImp rest k v

/-- One non-entity proposal's update of `improvements_by_objective`: read the
accumulated improvement (0 if absent) and add `12.0 * 0.7 ** (acc / 12.0)`. -/
noncomputable def bumpImp (m : List (String × ℝ)) (k : String) : List (String × ℝ) :=
  setImp m k (((List.lookup k m).getD 0) +
    12.0 * (0.7 : ℝ) ^ (((List.lookup k m).getD 0) / 12.0))

/-- The per-proposal step of the improvements loop. -/
noncomputable def impStep (m : List (String × ℝ)) (p : ActionProposal) :
    List (String × ℝ) :=
  if isEntityTracking p.objective_id then m else bumpImp m p.objective_id

/-- `improvements_by_objective` after the proposals loop. -/
noncomputable def improvementsFold (ps : List ActionProposal) : List (String × ℝ) :=
  ps.foldl impStep []

/-- `entity_tracking_improvement`: 8.0 per entity-tracking proposal. -/
noncomputable def entityImprovementOf (ps : List ActionProposal) : ℝ :=
  ps.foldl (fun e p => if isEntityTracking p.objective_id then e + 8.0 else e) 0

/-- One row of `affected_objectives`. -/
structure AffectedEntry where
  objective_title : String
  current_score : ℝ
  projected_score : ℝ
  improvement : ℝ

/-- `ImpactSimulation` dataclass. -/
structure ImpactSimulation where
  current_score : ℝ
  projected_score : ℝ
  improvement : ℝ
  affected_objectives : List AffectedEntry

/-- `AgenticAI._simulate_impact`. -/
noncomputable def simulateImpact (r : AnalysisResults) (ps : List ActionProposal) :
    ImpactSimulation :=
  let currentScore : ℝ := (r.overall_score : ℚ)
  let imps := improvementsFold ps
  let entityImp := entityImprovementOf ps
  let objEntries : List AffectedEntry :=
    r.objective_synchronizations.filterMap (fun o =>
      match List.lookup o.objective_id imps with
      | none => none
      | some imp =>
        let current : ℝ := (o.combined_score : ℚ)
        let projected := min (current + imp) 100
        some ⟨o.objective_title, current, projected, projected - current⟩)
  let objTotal : ℝ := (objEntries.map (fun e => e.improvement)).sum
  let entityCur : ℝ := (r.entity_score : ℚ)
  let entityProj : ℝ := min (entityCur + entityImp) 100
  let affected :=
    if 0 < entityImp then
      objEntries ++ [⟨"Entity Tracking & KPI Coverage", entityCur, entityProj,
        entityProj - entityCur⟩]
    else objEntries
  let totalImprovement :=
    if 0 < entityImp then objTotal + (entityProj - entityCur) * 0.40 else objTotal
  let projectedOverall :=
    if affected.isEmpty then currentScore
    else if imps.isEmpty then min (currentScore + entityImp * 0.40) 100
    else
      let num := r.objective_synchronizations.length
      let avg := if 0 < num then totalImprovement / (num : ℝ) else totalImprovement
      min (currentScore + avg) 100
  { current_score := currentScore
    projected_score := projectedOverall
    improvement := projectedOverall - currentScore
    affected_objectives := affected }

/-- The per-objective accumulation step `acc + 12.0 * 0.7 ** (acc / 12.0)`. -/
noncomputable def accStepR (a : ℝ) : ℝ := a + 12.0 * (0.7 : ℝ) ^ (a / 12.0)

/-- Accumulated improvement of one objective after n of its proposals. -/
noncomputable def accAfterN : Nat → ℝ
  | 0 => 0
  | n + 1 => accStepR (accAfterN n)

/-! ## Proposal acceptance (AgenticAI.accept_proposal) -/

/-- One KPI row of an action-plan section. -/
structure KpiEntry where
  metric : String
  target : Option ℚ
  unit : String
  deadline : Option String
deriving DecidableEq, Repr

/-- An action-plan section. -/
structure ActionSection where
  id : String
  stype : String
  title : String
  content : String
  kpis : List KpiEntry
  budget : ℚ
  timeline : String
  initiatives : List String
  priority : String
deriving DecidableEq, Repr

/-- The action-plan document; `total_budget` is optional and Python's truthy
test treats a stored 0 like an absent budget. -/
structure ActionDoc where
  title : String
  sections : List ActionSection
  total_budget : Option ℚ
deriving DecidableEq, Repr

/-- The new action-plan section built from an accepted proposal's fields. -/
def newSectionFor (doc : ActionDoc) (p : ActionProposal) : ActionSection :=
  { id := "action_agent_" ++ toString (doc.sections.length + 1)
    stype := "action_item"
    title := p.action_title
    content := p.description
    kpis := p.expected_kpis.map (fun k => ⟨k, none, "", none⟩)
    budget := p.budget_estimate
    timeline := p.timeline
    initiatives := []
    priority := p.priority }

/-- Flip the status of the first proposal with the given id to "accepted". -/
def setAcceptedStatus (pid : String) : List ActionProposal → List ActionProposal
  | [] => []
  | q :: qs =>
    if q.id = pid then { q with status := "accepted" } :: qs
    else q :: setAcceptedStatus pid qs

/-- `AgenticAI.accept_proposal`: look the proposal up in the persisted agent
results (error before any mutation when absent), append the derived section,
bump the tracked total budget, and mark the proposal accepted. -/
def acceptProposal (pid : String) (doc : ActionDoc) (agentProposals : List ActionProposal) :
    Except String (ActionDoc × List ActionProposal) :=
  match agentProposals.find? (fun p => p.id == pid) with
  | none => Except.error ("Proposal " ++ pid ++ " not found")
  | some p =>
    let doc2 : ActionDoc :=
      { doc with
        sections := doc.sections ++ [newSectionFor doc p]
        total_budget :=
          match doc.total_budget with
          | some b => if b ≠ 0 then some (b + p.budget_estimate) else some b
          | none => none }
    Except.ok (doc2, setAcceptedStatus pid agentProposals)

/-! ## Concrete example inputs used by witnesses and counterexamples -/

/-- A sample strategic KPI entity. -/
def entEx : Entity := ⟨"Revenue growth", "KPI", none, "", ""⟩

/-- A strategic entity map with one KPI entity. -/
def seEx : List (String × List Entity) := [("KPI", [entEx])]

/-- Constant fuzzy scorers standing in for the external ratio functions. -/
def fsEx : FuzzyScorers := ⟨fun _ _ => 90, fun _ _ => 70⟩

/-- A pending proposal as accepted tests use it. -/
def pEx : ActionProposal :=
  { id := "proposal_1", priority := "high", objective_id := "obj_1"
    objective_title := "Objective One", action_title := "New Action"
    description := "Implement the new action", budget_estimate := 250000
    timeline := "Q1 2026", expected_kpis := ["KPI coverage"]
    rationale := "fills a gap", expected_impact := "raises the score"
    status := "pending" }

/-- An action plan with a tracked total budget of 1,000,000. -/
def docEx : ActionDoc := { title := "Action Plan", sections := [], total_budget := some 1000000 }

/-- An entity-tracking proposal (reserved objective id). -/
def peEx : ActionProposal := { pEx with id := "proposal_2", objective_id := "entity_tracking" }

/-- An objective synchronization at combined score 95. -/
def oEx : ObjSync :=
  { objective_id := "obj_1", objective_title := "Objective One", embedding_score := 90
    entity_matches := 3, entity_score := 60, combined_score := 95
    top_matching_actions := [], has_strong_support := true, gaps := [] }

/-- An analysis-results record with one objective at 95 and overall score 80. -/
def rEx : AnalysisResults :=
  { overall_score := 80, entity_score := 50, unmatched_entities := 0
    objective_synchronizations := [oEx] }

/-! ## Helper lemmas -/

/-- `List.lookup` on a cons cell, with the boolean key test turned into a
propositional one. -/
theorem lookup_cons_eq {β : Type} (k a : String) (b : β) (rest : List (String × β)) :
    List.lookup k ((a, b) :: rest) = if k = a then some b else List.lookup k rest := by
  rw [List.lookup_cons]
  by_cases h : k = a
  · simp [h]
  · simp [h, beq_false_of_ne h]

/-- Looking up a key after inserting into the grouping dict. -/
theorem lookupD_groupInsert (m : List (String × List SavedMatch)) (k k' : String)
    (v : SavedMatch) :
    (List.lookup k (groupInsert m k' v)).getD [] =
      if k = k' then ((List.lookup k m).getD []) ++ [v]
      else (List.lookup k m).getD [] := by
  induction m with
  | nil =>
    by_cases h : k = k' <;> simp [groupInsert, lookup_cons_eq, h]
  | cons p rest ih =>
    obtain ⟨a, b⟩ := p
    by_cases hp : a = k'
    · subst hp
      by_cases hk : k = a <;> simp [groupInsert, lookup_cons_eq, hk]
    · by_cases hk : k = a
      · subst hk
        have hkk : ¬ k = k' := hp
        simp [groupInsert, hp, lookup_cons_eq, hkk]
      · simp [groupInsert, hp, lookup_cons_eq, hk, ih]

/-- The grouping dict of `_analyze_objectives` holds, at each objective title,
exactly the saved matches with that strategic source, in input order. -/
theorem lookupD_entityMatchesByObj (ms : List SavedMatch) (k : String) :
    (List.lookup k (entityMatchesByObj ms)).getD [] =
      ms.filter (fun mt => mt.strategic_entity.source = k) := by
  have aux : ∀ (l : List SavedMatch) (m : List (String × List SavedMatch)),
      (List.lookup k (l.foldl (fun acc mt => groupInsert acc mt.strategic_entity.source mt) m)).getD []
        = ((List.lookup k m).getD []) ++ l.filter (fun mt => mt.strategic_entity.source = k) := by
    intro l
    induction l with
    | nil => intro m; simp
    | cons mt l ih =>
      intro m
      rw [List.foldl_cons, ih, lookupD_groupInsert]
      by_cases h : k = mt.strategic_entity.source
      · simp [h, List.filter_cons]
      · have h2 : ¬ mt.strategic_entity.source = k := fun hh => h hh.symm
        simp [h, h2, List.filter_cons]
  have := aux ms []
  simpa [entityMatchesByObj] using this

/-! ## C1: per-objective fusion formulas -/

/-- C1: for every objective processed by the score fusion engine,
`embedding_score = best_similarity * 100`, `entity_match_count` counts the
saved entity matches whose strategic source equals the objective title,
`entity_score = min(count * 20, 100)`, and
`combined_score = w_embed * embedding_score + w_entity * entity_score`;
with weights 0.6/0.4, best similarity 0.82 and 6 matched entities the
objective scores 82 / 100 (capped from 120) / 89.2. -/
theorem fusion_per_objective_formulas (eng : ScoringEngine) (ms : List SavedMatch)
    (alignments : List ObjAlignment) (a : ObjAlignment) :
    analyzeObjectives eng alignments ms = alignments.map (syncOf eng ms) ∧
    (syncOf eng ms a).embedding_score = a.best_match_score * 100 ∧
    (syncOf eng ms a).entity_matches =
      (ms.filter (fun mt => mt.strategic_entity.source = a.objective_title)).length ∧
    (syncOf eng ms a).entity_score =
      min ((((ms.filter (fun mt => mt.strategic_entity.source = a.objective_title)).length : ℚ)) * 20) 100 ∧
    (syncOf eng ms a).combined_score =
      eng.embedding_weight * (syncOf eng ms a).embedding_score +
        eng.entity_weight * (syncOf eng ms a).entity_score ∧
    (∀ (ms6 : List SavedMatch) (a6 : ObjAlignment),
      a6.best_match_score = 82/100 →
      (ms6.filter (fun mt => mt.strategic_entity.source = a6.objective_title)).length = 6 →
      (syncOf ⟨6/10, 4/10, 75⟩ ms6 a6).embedding_score = 82 ∧
      (syncOf ⟨6/10, 4/10, 75⟩ ms6 a6).entity_score = 100 ∧
      (syncOf ⟨6/10, 4/10, 75⟩ ms6 a6).combined_score = 892/10) := by
  refine ⟨rfl, rfl, ?_, ?_, rfl, ?_⟩
  · simp [syncOf, lookupD_entityMatchesByObj]
  · simp [syncOf, lookupD_entityMatchesByObj]
  · intro ms6 a6 hb hc
    have hemb : (syncOf ⟨6/10, 4/10, 75⟩ ms6 a6).embedding_score = 82 := by
      show a6.best_match_score * 100 = 82
      rw [hb]; norm_num
    have hcnt : (syncOf ⟨6/10, 4/10, 75⟩ ms6 a6).entity_matches = 6 := by
      show ((List.lookup a6.objective_title (entityMatchesByObj ms6)).getD []).length = 6
      rw [lookupD_entityMatchesByObj]; exact hc
    have hent : (syncOf ⟨6/10, 4/10, 75⟩ ms6 a6).entity_score = 100 := by
      show min ((((List.lookup a6.objective_title (entityMatchesByObj ms6)).getD []).length : ℚ) * 20) 100 = 100
      rw [lookupD_entityMatchesByObj, hc]; norm_num
    refine ⟨hemb, hent, ?_⟩
    show (6/10 : ℚ) * (a6.best_match_score * 100) +
      (4/10 : ℚ) * min ((((List.lookup a6.objective_title (entityMatchesByObj ms6)).getD []).length : ℚ) * 20) 100 = 892/10
    rw [lookupD_entityMatchesByObj, hc, hb]; norm_num

/-! ## C6: weight validation at construction -/

/-- C6: both scoring engines fail construction exactly when
`|w_embed + w_entity - 1| > 0.01`. -/
theorem weight_validation_iff (w1 w2 thr : ℚ) :
    ((∃ msg, scoringEngineInit w1 w2 thr = Except.error msg) ↔ 1/100 < |w1 + w2 - 1|) ∧
    ((∃ msg, llmScoringEngineInit w1 w2 thr = Except.error msg) ↔ 1/100 < |w1 + w2 - 1|) := by
  unfold scoringEngineInit llmScoringEngineInit
  split_ifs with h
  · exact ⟨⟨fun _ => h, fun _ => ⟨_, rfl⟩⟩, ⟨fun _ => h, fun _ => ⟨_, rfl⟩⟩⟩
  · constructor <;> constructor <;> intro hx
    · obtain ⟨msg, hm⟩ := hx; cases hm
    · exact absurd hx h
    · obtain ⟨msg, hm⟩ := hx; cases hm
    · exact absurd hx h

/-! ## C8: gap labels -/

/-- C8: the fusion engine attaches the low-semantic-similarity gap exactly when
`embedding_score < 70`, the no-KPI-match gap exactly when the entity match
count is 0, and the below-threshold gap exactly when the alignment's raw
`has_support` flag is false; the first and third can fire together. -/
theorem gap_label_conditions (eng : ScoringEngine) (ms : List SavedMatch)
    (a : ObjAlignment) :
    (Gap.lowSemantic ∈ (syncOf eng ms a).gaps ↔ (syncOf eng ms a).embedding_score < 70) ∧
    (Gap.noEntityMatch ∈ (syncOf eng ms a).gaps ↔ (syncOf eng ms a).entity_matches = 0) ∧
    (Gap.belowThreshold ∈ (syncOf eng ms a).gaps ↔ a.has_support = false) ∧
    (∃ eng2 ms2 a2, Gap.lowSemantic ∈ (syncOf eng2 ms2 a2).gaps ∧
      Gap.belowThreshold ∈ (syncOf eng2 ms2 a2).gaps) := by
  refine ⟨?_, ?_, ?_, ?_⟩
  · show Gap.lowSemantic ∈
      (if a.best_match_score * 100 < 70 then [Gap.lowSemantic] else []) ++ _ ++ _ ↔
      a.best_match_score * 100 < 70
    split_ifs with h1 h2 h3 <;> simp_all
  · show Gap.noEntityMatch ∈ _ ++
      (if ((List.lookup a.objective_title (entityMatchesByObj ms)).getD []).length = 0
        then [Gap.noEntityMatch] else []) ++ _ ↔ _
    split_ifs with h1 h2 h3 <;> simp_all [syncOf]
  · show Gap.belowThreshold ∈ _ ++ _ ++
      (if a.has_support = false then [Gap.belowThreshold] else []) ↔ a.has_support = false
    split_ifs with h1 h2 h3 <;> simp_all
  · have hg : (syncOf ⟨1, 0, 75⟩ [] ⟨"o1", "Objective One", 0, false, []⟩).gaps
        = [Gap.lowSemantic, Gap.noEntityMatch, Gap.belowThreshold] := by
      show (if (0 : ℚ) * 100 < 70 then [Gap.lowSemantic] else []) ++ _ ++ _ = _
      norm_num [entityMatchesByObj]
    refine ⟨⟨1, 0, 75⟩, [], ⟨"o1", "Objective One", 0, false, []⟩, ?_, ?_⟩ <;>
      rw [hg] <;> simp

/-! ## C4: document-level entity score -/

/-- Every entry of the static entity-weights table is positive. -/
theorem entityWeight_pos (t : String) : 0 < entityWeight t := by
  unfold entityWeight
  split_ifs <;> norm_num

/-- The matched weighted sum is nonnegative. -/
theorem matchedWeighted_nonneg (se : List (String × List Entity)) (ids : List String) :
    0 ≤ matchedWeighted se ids := by
  unfold matchedWeighted
  apply List.sum_nonneg
  intro x hx
  obtain ⟨p, _, rfl⟩ := List.mem_map.mp hx
  apply List.sum_nonneg
  intro y hy
  obtain ⟨e, _, rfl⟩ := List.mem_map.mp hy
  split_ifs
  · exact (entityWeight_pos _).le
  · exact le_refl 0

/-- The matched weighted sum never exceeds the total weighted sum. -/
theorem matchedWeighted_le_totalWeighted (se : List (String × List Entity))
    (ids : List String) : matchedWeighted se ids ≤ totalWeighted se := by
  unfold matchedWeighted totalWeighted
  apply List.sum_le_sum
  intro p _
  apply List.sum_le_sum
  intro e _
  split_ifs
  · exact le_refl _
  · exact (entityWeight_pos _).le

/-- C4 counterexample: one strategic entity and no matches give overall entity
score 0, refuting "nonzero whenever at least one strategic entity exists". -/
theorem entity_score_cex :
    (calculateEntityScore seEx [] []).overall_score = 0 ∧
    (calculateEntityScore seEx [] []).total_strategic_entities = 1 := by
  constructor
  · show (if 0 < totalWeighted seEx
      then matchedWeighted seEx (matchedIds []) / totalWeighted seEx * 100 else 0) = 0
    norm_num [totalWeighted, matchedWeighted, matchedIds, seEx, entEx, entityWeight]
  · decide

/-- C4 amended: the entity score is the matched weighted sum over the total
weighted sum times 100 (0 when the total is 0, hence when there are no
strategic entities), always lies in [0,100], and is 0 exactly when the matched
weighted sum is 0 — which can happen with strategic entities present. -/
theorem entity_score_amended (se1 ae1 : List (String × List Entity))
    (ms1 : List EntityMatch) (se2 ae2 : List (String × List Entity))
    (ms2 : List EntityMatch)
    (h1 : totalWeighted se1 = 0) (h2 : 0 < totalWeighted se2) :
    (calculateEntityScore se1 ae1 ms1).overall_score = 0 ∧
    (calculateEntityScore se2 ae2 ms2).overall_score
      = matchedWeighted se2 (matchedIds ms2) / totalWeighted se2 * 100 ∧
    0 ≤ (calculateEntityScore se2 ae2 ms2).overall_score ∧
    (calculateEntityScore se2 ae2 ms2).overall_score ≤ 100 ∧
    ((calculateEntityScore se2 ae2 ms2).overall_score = 0 ↔
      matchedWeighted se2 (matchedIds ms2) = 0) := by
  have hnn := matchedWeighted_nonneg se2 (matchedIds ms2)
  have hle := matchedWeighted_le_totalWeighted se2 (matchedIds ms2)
  have hs2 : (calculateEntityScore se2 ae2 ms2).overall_score
      = matchedWeighted se2 (matchedIds ms2) / totalWeighted se2 * 100 := by
    show (if 0 < totalWeighted se2
      then matchedWeighted se2 (matchedIds ms2) / totalWeighted se2 * 100 else 0) = _
    rw [if_pos h2]
  refine ⟨?_, hs2, ?_, ?_, ?_⟩
  · show (if 0 < totalWeighted se1
      then matchedWeighted se1 (matchedIds ms1) / totalWeighted se1 * 100 else 0) = 0
    rw [h1]
    norm_num
  · rw [hs2]
    exact mul_nonneg (div_nonneg hnn h2.le) (by norm_num)
  · rw [hs2]
    have hdiv : matchedWeighted se2 (matchedIds ms2) / totalWeighted se2 ≤ 1 :=
      (div_le_one h2).mpr hle
    calc matchedWeighted se2 (matchedIds ms2) / totalWeighted se2 * 100
        ≤ 1 * 100 := by
          exact mul_le_mul_of_nonneg_right hdiv (by norm_num)
      _ = 100 := by norm_num
  · rw [hs2]
    constructor
    · intro h0
      rcases mul_eq_zero.mp h0 with hq | hq
      · rcases div_eq_zero_iff.mp hq with hm | ht
        · exact hm
        · exact absurd ht (ne_of_gt h2)
      · exact absurd hq (by norm_num)
    · intro h0
      rw [h0]
      simp

/-- Witness for the amended C4 theorem at concrete inputs. -/
theorem entity_score_amended_witness :
    totalWeighted [] = 0 ∧ 0 < totalWeighted seEx ∧
    ((calculateEntityScore [] [] []).overall_score = 0 ∧
     (calculateEntityScore seEx [] []).overall_score
       = matchedWeighted seEx (matchedIds []) / totalWeighted seEx * 100 ∧
     0 ≤ (calculateEntityScore seEx [] []).overall_score ∧
     (calculateEntityScore seEx [] []).overall_score ≤ 100 ∧
     ((calculateEntityScore seEx [] []).overall_score = 0 ↔
       matchedWeighted seEx (matchedIds []) = 0)) :=
  ⟨by norm_num [totalWeighted],
   by norm_num [totalWeighted, seEx, entEx, entityWeight],
   entity_score_amended [] [] [] seEx [] []
     (by norm_num [totalWeighted])
     (by norm_num [totalWeighted, seEx, entEx, entityWeight])⟩

/-! ## C7: finding rules and ordering -/

/-- The criticals pass emits one numbered critical finding per objective with
combined score < 50, in document order, advancing the counter accordingly. -/
theorem criticalPass_eq (os : List ObjSync) : ∀ n : Nat,
    criticalPass os n =
      (numberedFrom mkCritical n (os.filter (fun o => o.combined_score < 50)),
       n + (os.filter (fun o => o.combined_score < 50)).length) := by
  induction os with
  | nil => intro n; simp [criticalPass, numberedFrom]
  | cons o os ih =>
    intro n
    by_cases h : o.combined_score < 50
    · simp only [criticalPass, if_pos h, ih, List.filter_cons, decide_eq_true h, if_true,
        numberedFrom, List.length_cons, Prod.mk.injEq]
      refine ⟨?_, ?_⟩ <;> first | trivial | omega
    · simp only [criticalPass, if_neg h, ih, List.filter_cons,
        decide_eq_false h, Bool.false_eq_true, if_false]

/-- The weak-support pass emits one numbered high finding per objective with
combined score in [50,65), in document order. -/
theorem highPass_eq (os : List ObjSync) : ∀ n : Nat,
    highPass os n =
      (numberedFrom mkHigh n
        (os.filter (fun o => 50 ≤ o.combined_score ∧ o.combined_score < 65)),
       n + (os.filter (fun o => 50 ≤ o.combined_score ∧ o.combined_score < 65)).length) := by
  induction os with
  | nil => intro n; simp [highPass, numberedFrom]
  | cons o os ih =>
    intro n
    by_cases h : 50 ≤ o.combined_score ∧ o.combined_score < 65
    · simp only [highPass, if_pos h, ih, List.filter_cons, decide_eq_true h, if_true,
        numberedFrom, List.length_cons, Prod.mk.injEq]
      refine ⟨?_, ?_⟩ <;> first | trivial | omega
    · simp only [highPass, if_neg h, ih, List.filter_cons,
        decide_eq_false h, Bool.false_eq_true, if_false]

/-- Every finding produced by a numbered pass has the severity its maker
assigns. -/
theorem numberedFrom_severity (mk : Nat → ObjSync → Finding) (s : String)
    (hmk : ∀ n o, (mk n o).severity = s) :
    ∀ (n : Nat) (os : List ObjSync) (f : Finding), f ∈ numberedFrom mk n os →
      f.severity = s := by
  intro n os
  induction os generalizing n with
  | nil => intro f hf; simp [numberedFrom] at hf
  | cons o os ih =>
    intro f hf
    rw [numberedFrom] at hf
    rcases List.mem_cons.mp hf with h | h
    · rw [h]; exact hmk _ _
    · exact ih _ f h

/-- A stable insertion sort is the identity on a list already sorted by the
key. -/
theorem sortBySeverity_eq_self (l : List Finding)
    (h : l.Pairwise (fun a b => severityRank a.severity ≤ severityRank b.severity)) :
    sortBySeverity l = l := by
  induction l with
  | nil => rfl
  | cons f fs ih =>
    have hp := List.pairwise_cons.mp h
    rw [sortBySeverity, ih hp.2]
    cases fs with
    | nil => rfl
    | cons g gs =>
      have hfg : severityRank f.severity ≤ severityRank g.severity :=
        hp.1 g (by simp)
      simp [insertByRank, not_lt.mpr hfg]

/-- C7: the finding detector emits a critical finding per objective with
combined score < 50 (impact "High - ..."), a high finding per objective with
combined score in [50,65) (impact "Medium-High - ..."), and exactly one high
finding affecting "Multiple objectives" when more than 10 entities are
unmatched; the result is ordered criticals first, then highs, each block in
document order, with the entity finding last among the highs. -/
theorem finding_rules_and_order (r : AnalysisResults) :
    identifyCriticalFindings r =
      numberedFrom mkCritical 0
        (r.objective_synchronizations.filter (fun o => o.combined_score < 50)) ++
      (numberedFrom mkHigh
        (r.objective_synchronizations.filter (fun o => o.combined_score < 50)).length
        (r.objective_synchronizations.filter
          (fun o => 50 ≤ o.combined_score ∧ o.combined_score < 65)) ++
      (if r.unmatched_entities > 10
        then [mkEntityFinding
          ((r.objective_synchronizations.filter (fun o => o.combined_score < 50)).length +
           (r.objective_synchronizations.filter
             (fun o => 50 ≤ o.combined_score ∧ o.combined_score < 65)).length + 1)]
        else [])) := by
  have hA : ∀ f ∈ numberedFrom mkCritical 0
      (r.objective_synchronizations.filter (fun o => o.combined_score < 50)),
      severityRank f.severity = 0 := by
    intro f hf
    rw [numberedFrom_severity mkCritical "critical" (fun _ _ => rfl) _ _ f hf]
    simp [severityRank]
  have hB : ∀ f ∈ numberedFrom mkHigh
      (r.objective_synchronizations.filter (fun o => o.combined_score < 50)).length
      (r.objective_synchronizations.filter
        (fun o => 50 ≤ o.combined_score ∧ o.combined_score < 65)),
      severityRank f.severity = 1 := by
    intro f hf
    rw [numberedFrom_severity mkHigh "high" (fun _ _ => rfl) _ _ f hf]
    simp [severityRank]
  have hE : ∀ f ∈ (if r.unmatched_entities > 10
      then [mkEntityFinding
        ((r.objective_synchronizations.filter (fun o => o.combined_score < 50)).length +
         (r.objective_synchronizations.filter
           (fun o => 50 ≤ o.combined_score ∧ o.combined_score < 65)).length + 1)]
      else []), severityRank f.severity = 1 := by
    intro f hf
    split_ifs at hf with hu
    · rcases List.mem_singleton.mp hf with rfl
      simp [severityRank, mkEntityFinding]
    · simp at hf
  have hsorted : (numberedFrom mkCritical 0
        (r.objective_synchronizations.filter (fun o => o.combined_score < 50)) ++
      (numberedFrom mkHigh
        (r.objective_synchronizations.filter (fun o => o.combined_score < 50)).length
        (r.objective_synchronizations.filter
          (fun o => 50 ≤ o.combined_score ∧ o.combined_score < 65)) ++
      (if r.unmatched_entities > 10
        then [mkEntityFinding
          ((r.objective_synchronizations.filter (fun o => o.combined_score < 50)).length +
           (r.objective_synchronizations.filter
             (fun o => 50 ≤ o.combined_score ∧ o.combined_score < 65)).length + 1)]
        else []))).Pairwise
      (fun a b => severityRank a.severity ≤ severityRank b.severity) := by
    rw [List.pairwise_append]
    refine ⟨List.pairwise_of_forall_mem_list ?_, ?_, ?_⟩
    · intro a ha b hb
      rw [hA a ha, hA b hb]
    · rw [List.pairwise_append]
      refine ⟨List.pairwise_of_forall_mem_list ?_, List.pairwise_of_forall_mem_list ?_, ?_⟩
      · intro a ha b hb
        rw [hB a ha, hB b hb]
      · intro a ha b hb
        rw [hE a ha, hE b hb]
      · intro a ha b hb
        rw [hB a ha, hE b hb]
    · intro a ha b hb
      rw [hA a ha]
      rcases List.mem_append.mp hb with h | h
      · rw [hB b h]; omega
      · rw [hE b h]; omega
  simp only [identifyCriticalFindings, criticalPass_eq, highPass_eq, Nat.zero_add]
  exact sortBySeverity_eq_self _ hsorted

/-! ## C5: proposal acceptance -/

/-- Flipping the status of the first proposal with a given id leaves it
findable under that id, now with status "accepted". -/
theorem find_setAcceptedStatus (pid : String) (ps : List ActionProposal)
    (p : ActionProposal) (h : ps.find? (fun q => q.id == pid) = some p) :
    (setAcceptedStatus pid ps).find? (fun q => q.id == pid)
      = some { p with status := "accepted" } := by
  induction ps with
  | nil => simp at h
  | cons q qs ih =>
    by_cases hq : q.id = pid
    · rw [List.find?_cons_of_pos _ (by simp [hq])] at h
      injection h with h
      subst h
      rw [setAcceptedStatus, if_pos hq]
      exact List.find?_cons_of_pos _ (by simp [hq])
    · rw [List.find?_cons_of_neg _ (by simp [hq])] at h
      rw [setAcceptedStatus, if_neg hq]
      rw [List.find?_cons_of_neg _ (by simp [hq])]
      exact ih h

/-- C5: acceptance fails with a not-found error (before any mutation of the
action plan) when the id is absent; when present it appends exactly one
section derived from the proposal, adds the proposal's budget estimate to a
tracked nonzero total budget, and flips the proposal's status to accepted. -/
theorem accept_proposal_behavior (pid : String) (doc : ActionDoc)
    (psA psB : List ActionProposal) (p : ActionProposal)
    (hA : psA.find? (fun q => q.id == pid) = none)
    (hB : psB.find? (fun q => q.id == pid) = some p) :
    (∃ msg, acceptProposal pid doc psA = Except.error msg) ∧
    (∃ doc2 ps2, acceptProposal pid doc psB = Except.ok (doc2, ps2) ∧
      doc2.sections = doc.sections ++ [newSectionFor doc p] ∧
      doc2.sections.length = doc.sections.length + 1 ∧
      (∀ b, doc.total_budget = some b → b ≠ 0 →
        doc2.total_budget = some (b + p.budget_estimate)) ∧
      ps2 = setAcceptedStatus pid psB ∧
      ps2.find? (fun q => q.id == pid) = some { p with status := "accepted" } ∧
      ({ p with status := "accepted" } : ActionProposal).status = "accepted") := by
  constructor
  · unfold acceptProposal
    rw [hA]
    exact ⟨_, rfl⟩
  · unfold acceptProposal
    rw [hB]
    refine ⟨_, _, rfl, rfl, by simp, ?_, rfl, find_setAcceptedStatus pid psB p hB, rfl⟩
    intro b hb hbne
    show (match doc.total_budget with
      | some b => if b ≠ 0 then some (b + p.budget_estimate) else some b
      | none => none) = some (b + p.budget_estimate)
    rw [hb]
    simp [hbne]

/-- Witness for C5 at a concrete proposal and action plan: budget 1,000,000
plus estimate 250,000 gives 1,250,000 and the proposal becomes accepted. -/
theorem accept_proposal_behavior_witness :
    (([] : List ActionProposal).find? (fun q => q.id == "proposal_1") = none) ∧
    ([pEx].find? (fun q => q.id == "proposal_1") = some pEx) ∧
    ((∃ msg, acceptProposal "proposal_1" docEx [] = Except.error msg) ∧
     (∃ doc2 ps2, acceptProposal "proposal_1" docEx [pEx] = Except.ok (doc2, ps2) ∧
       doc2.sections = docEx.sections ++ [newSectionFor docEx pEx] ∧
       doc2.sections.length = docEx.sections.length + 1 ∧
       (∀ b, docEx.total_budget = some b → b ≠ 0 →
         doc2.total_budget = some (b + pEx.budget_estimate)) ∧
       ps2 = setAcceptedStatus "proposal_1" [pEx] ∧
       ps2.find? (fun q => q.id == "proposal_1") = some { pEx with status := "accepted" } ∧
       ({ pEx with status := "accepted" } : ActionProposal).status = "accepted")) ∧
    (acceptProposal "proposal_1" docEx [pEx] =
      Except.ok ({ docEx with
                   sections := [newSectionFor docEx pEx],
                   total_budget := some 1250000 },
                 [{ pEx with status := "accepted" }])) := by
  refine ⟨by simp, by simp [pEx], ?_, ?_⟩
  · exact accept_proposal_behavior "proposal_1" docEx [] [pEx] pEx (by simp) (by simp [pEx])
  · show (match [pEx].find? (fun q => q.id == "proposal_1") with
      | none => Except.error ("Proposal " ++ "proposal_1" ++ " not found")
      | some p => _) = _
    rw [show [pEx].find? (fun q => q.id == "proposal_1") = some pEx by simp [pEx]]
    show Except.ok (_, setAcceptedStatus "proposal_1" [pEx]) = _
    rw [show setAcceptedStatus "proposal_1" [pEx] = [{ pEx with status := "accepted" }] by
      simp [setAcceptedStatus, pEx]]
    show Except.ok ({ docEx with
                      sections := docEx.sections ++ [newSectionFor docEx pEx],
                      total_budget := match docEx.total_budget with
                        | some b => if b ≠ 0 then some (b + pEx.budget_estimate) else some b
                        | none => none }, _) = _
    norm_num [docEx, pEx]

/-! ## C9 and C10: entity matcher tie-break, determinism, emitted bands -/

/-- When the maximum score over a candidate list is positive, `find?` locates
its first attainer. -/
theorem find_attains_max (g : Entity → Nat × String) (l : List Entity)
    (h : 0 < maxScoreOf g l) :
    ∃ x, l.find? (fun a => (g a).1 == maxScoreOf g l) = some x ∧
      (g x).1 = maxScoreOf g l := by
  induction l with
  | nil => simp [maxScoreOf] at h
  | cons a l ih =>
    have hM : maxScoreOf g (a :: l) = max (g a).1 (maxScoreOf g l) := rfl
    by_cases hga : (g a).1 = maxScoreOf g (a :: l)
    · exact ⟨a, List.find?_cons_of_pos _ (by simp [hga]), hga⟩
    · have h2 : maxScoreOf g (a :: l) = maxScoreOf g l := by
        rw [hM] at hga ⊢
        rw [Nat.max_def] at hga ⊢
        split_ifs at hga ⊢ with hc
        · rfl
        · omega
      have hMl : 0 < maxScoreOf g l := by rw [← h2]; exact h
      obtain ⟨x, hx, hgx⟩ := ih hMl
      refine ⟨x, ?_, by rw [h2]; exact hgx⟩
      have hpaf : ((g a).1 == maxScoreOf g l) = false := by
        simp only [beq_eq_false_iff_ne, ne_eq]
        rw [← h2]
        exact hga
      simp only [List.find?_cons, h2, hpaf, hx]

/-- Characterization of the strict-improvement scan of `match_entities`: from
any start it ends at the overall maximum, held by the first candidate that
attains it (ties keep the earliest-scanned candidate). -/
theorem bestScan_characterization (g : Entity → Nat × String) (l : List Entity) :
    ∀ (s : Nat) (c : Option Entity) (t : String),
      l.foldl (bestScanStep g) (s, c, t) =
        if s < maxScoreOf g l then
          match l.find? (fun a => (g a).1 == maxScoreOf g l) with
          | some x => ((g x).1, some x, (g x).2)
          | none => (s, c, t)
        else (s, c, t) := by
  induction l with
  | nil =>
    intro s c t
    simp [maxScoreOf]
  | cons a l ih =>
    intro s c t
    have hM : maxScoreOf g (a :: l) = max (g a).1 (maxScoreOf g l) := rfl
    rw [List.foldl_cons]
    by_cases h1 : (g a).1 > s
    · rw [show bestScanStep g (s, c, t) a = ((g a).1, some a, (g a).2) by
        simp only [bestScanStep]; rw [if_pos h1], ih]
      by_cases h2 : (g a).1 < maxScoreOf g l
      · have hMl : 0 < maxScoreOf g l := by omega
        obtain ⟨x, hx, hgx⟩ := find_attains_max g l hMl
        have hMM : maxScoreOf g (a :: l) = maxScoreOf g l := by
          rw [hM, Nat.max_def]
          split_ifs with hc
          · rfl
          · omega
        have hpaf : ((g a).1 == maxScoreOf g l) = false := by
          simp only [beq_eq_false_iff_ne, ne_eq]
          omega
        rw [if_pos h2, hx, if_pos (show s < maxScoreOf g (a :: l) by rw [hMM]; omega)]
        simp only [List.find?_cons, hMM, hpaf, hx]
      · have hMM : maxScoreOf g (a :: l) = (g a).1 := by
          rw [hM, Nat.max_def]
          split_ifs with hc
          · omega
          · rfl
        have hpat : ((g a).1 == maxScoreOf g (a :: l)) = true := by
          rw [hMM]
          simp
        rw [if_neg h2, if_pos (show s < maxScoreOf g (a :: l) by rw [hMM]; omega)]
        simp only [List.find?_cons, hpat]
    · rw [show bestScanStep g (s, c, t) a = (s, c, t) by
        simp only [bestScanStep]; rw [if_neg h1], ih]
      by_cases h2 : s < maxScoreOf g l
      · have hMM : maxScoreOf g (a :: l) = maxScoreOf g l := by
          rw [hM, Nat.max_def]
          split_ifs with hc
          · rfl
          · omega
        have hpaf : ((g a).1 == maxScoreOf g l) = false := by
          simp only [beq_eq_false_iff_ne, ne_eq]
          omega
        rw [if_pos h2, if_pos (show s < maxScoreOf g (a :: l) by rw [hMM]; omega)]
        simp only [List.find?_cons, hMM, hpaf]
      · have hMM : maxScoreOf g (a :: l) ≤ s := by
          rw [hM, Nat.max_def]
          split_ifs <;> omega
        rw [if_neg h2, if_neg (show ¬ s < maxScoreOf g (a :: l) by omega)]

/-- With a positive threshold, the per-type matcher equals its spec-side
first-argmax restatement. -/
theorem matchesForLists_eq_spec (fs : FuzzyScorers) (thr : Nat) (hthr : 1 ≤ thr)
    (sps aps : List Entity) :
    matchesForLists fs thr sps aps = specMatchesForLists fs thr sps aps := by
  unfold matchesForLists specMatchesForLists
  apply List.filterMap_congr
  intro sp _
  have hb : bestCandidate fs thr sp aps =
      (if 0 < maxScoreOf (fun ap => fuzzyMatch fs thr sp.text ap.text) aps then
        match aps.find? (fun a =>
          ((fun ap => fuzzyMatch fs thr sp.text ap.text) a).1 ==
            maxScoreOf (fun ap => fuzzyMatch fs thr sp.text ap.text) aps) with
        | some x => (((fun ap => fuzzyMatch fs thr sp.text ap.text) x).1, some x,
            ((fun ap => fuzzyMatch fs thr sp.text ap.text) x).2)
        | none => (0, none, "no_match")
      else (0, none, "no_match")) :=
    bestScan_characterization (fun ap => fuzzyMatch fs thr sp.text ap.text) aps 0 none "no_match"
  by_cases hM : 0 < maxScoreOf (fun ap => fuzzyMatch fs thr sp.text ap.text) aps
  · obtain ⟨x, hx, hgx⟩ :=
      find_attains_max (fun ap => fuzzyMatch fs thr sp.text ap.text) aps hM
    rw [hb, if_pos hM, hx]
    simp only [hx, hgx]
  · rw [hb, if_neg hM]
    have hM0 : maxScoreOf (fun ap => fuzzyMatch fs thr sp.text ap.text) aps = 0 := by
      omega
    have hno : ¬ thr ≤ (0 : Nat) := by omega
    simp only [hM0, ge_iff_le, hno, if_false]

/-- The per-type step equals its spec-side restatement. -/
theorem typeMatches_eq_spec (fs : FuzzyScorers) (thr : Nat) (hthr : 1 ≤ thr)
    (ae : List (String × List Entity)) (p : String × List Entity) :
    typeMatches fs thr ae p = specTypeMatches fs thr ae p := by
  unfold typeMatches specTypeMatches
  cases List.lookup p.1 ae with
  | none => rfl
  | some aps => exact matchesForLists_eq_spec fs thr hthr p.2 aps

/-- C9: entity matching is deterministic on identical inputs, and (for a
positive fuzzy threshold, default 85) each strategic entity is paired with the
first action entity in list order attaining the maximum score, emitted only
when that maximum reaches the threshold. -/
theorem match_entities_deterministic_first_best (fs : FuzzyScorers) (thr : Nat)
    (se ae : List (String × List Entity)) (hthr : 1 ≤ thr) :
    matchEntities fs thr se ae = matchEntities fs thr se ae ∧
    matchEntities fs thr se ae = specMatchEntities fs thr se ae := by
  refine ⟨rfl, ?_⟩
  unfold matchEntities specMatchEntities
  have hfun : (fun (acc : List EntityMatch) p => acc ++ typeMatches fs thr ae p)
      = (fun (acc : List EntityMatch) p => acc ++ specTypeMatches fs thr ae p) := by
    funext acc p
    rw [typeMatches_eq_spec fs thr hthr ae p]
  rw [hfun]

/-- Witness for C9: concrete scorers, threshold 85, and one KPI on each side. -/
theorem match_entities_deterministic_first_best_witness :
    matchEntities fsEx 85 [("KPI", [entEx])] [("KPI", [entEx])]
      = matchEntities fsEx 85 [("KPI", [entEx])] [("KPI", [entEx])] ∧
    matchEntities fsEx 85 [("KPI", [entEx])] [("KPI", [entEx])]
      = specMatchEntities fsEx 85 [("KPI", [entEx])] [("KPI", [entEx])] :=
  match_entities_deterministic_first_best fsEx 85
    [("KPI", [entEx])] [("KPI", [entEx])] (by norm_num)

/-- Membership in an appending fold. -/
theorem mem_foldl_append {α β : Type} (f : α → List β) :
    ∀ (l : List α) (init : List β) (m : β),
      m ∈ l.foldl (fun acc x => acc ++ f x) init ↔ m ∈ init ∨ ∃ x ∈ l, m ∈ f x := by
  intro l
  induction l with
  | nil =>
    intro init m
    simp
  | cons a l ih =>
    intro init m
    rw [List.foldl_cons, ih]
    simp only [List.mem_append, List.mem_cons, or_assoc]
    constructor
    · rintro (h | h | ⟨x, hx, hm⟩)
      · exact Or.inl h
      · exact Or.inr ⟨a, Or.inl rfl, h⟩
      · exact Or.inr ⟨x, Or.inr hx, hm⟩
    · rintro (h | ⟨x, hx | hx, hm⟩)
      · exact Or.inl h
      · subst hx; exact Or.inr (Or.inl hm)
      · exact Or.inr (Or.inr ⟨x, hx, hm⟩)

/-- A fuzzy-match outcome whose score reaches the threshold is classified
exact or fuzzy, never partial or no-match. -/
theorem fuzzyMatch_band_of_ge (fs : FuzzyScorers) (thr : Nat) (t1 t2 : String)
    (h : thr ≤ (fuzzyMatch fs thr t1 t2).1) :
    (fuzzyMatch fs thr t1 t2).2 = "exact" ∨ (fuzzyMatch fs thr t1 t2).2 = "fuzzy" := by
  unfold fuzzyMatch at h ⊢
  split_ifs at h ⊢ <;> simp_all

/-- C10: every emitted entity match carries a score at least the (positive)
fuzzy threshold and a match type of "exact" or "fuzzy". -/
theorem emitted_match_band (fs : FuzzyScorers) (thr : Nat)
    (se ae : List (String × List Entity)) (hthr : 1 ≤ thr) :
    ∀ m ∈ matchEntities fs thr se ae,
      thr ≤ m.match_score ∧ (m.match_type = "exact" ∨ m.match_type = "fuzzy") := by
  intro m hm
  unfold matchEntities at hm
  rw [mem_foldl_append] at hm
  rcases hm with hm | ⟨p, _, hm⟩
  · simp at hm
  · unfold typeMatches at hm
    rcases hlk : List.lookup p.1 ae with _ | aps
    · rw [hlk] at hm
      simp at hm
    · rw [hlk] at hm
      unfold matchesForLists at hm
      rcases List.mem_filterMap.mp hm with ⟨sp, _, hsp⟩
      rcases hguard : decide ((bestCandidate fs thr sp aps).1 ≥ thr) with _ | _
      · rw [if_neg (by simpa using hguard)] at hsp
        cases hsp
      · have hge : (bestCandidate fs thr sp aps).1 ≥ thr := by simpa using hguard
        rw [if_pos hge] at hsp
        have hb : bestCandidate fs thr sp aps =
            (if 0 < maxScoreOf (fun ap => fuzzyMatch fs thr sp.text ap.text) aps then
              match aps.find? (fun a =>
                ((fun ap => fuzzyMatch fs thr sp.text ap.text) a).1 ==
                  maxScoreOf (fun ap => fuzzyMatch fs thr sp.text ap.text) aps) with
              | some x => (((fun ap => fuzzyMatch fs thr sp.text ap.text) x).1, some x,
                  ((fun ap => fuzzyMatch fs thr sp.text ap.text) x).2)
              | none => (0, none, "no_match")
            else (0, none, "no_match")) :=
          bestScan_characterization (fun ap => fuzzyMatch fs thr sp.text ap.text)
            aps 0 none "no_match"
        by_cases hM : 0 < maxScoreOf (fun ap => fuzzyMatch fs thr sp.text ap.text) aps
        · obtain ⟨x, hx, hgx⟩ :=
            find_attains_max (fun ap => fuzzyMatch fs thr sp.text ap.text) aps hM
          rw [if_pos hM, hx] at hb
          have hb1 : (bestCandidate fs thr sp aps).1 = (fuzzyMatch fs thr sp.text x.text).1 := by
            rw [show bestCandidate fs thr sp aps =
              ((fuzzyMatch fs thr sp.text x.text).1, some x,
                (fuzzyMatch fs thr sp.text x.text).2) from hb]
          have hb2 : (bestCandidate fs thr sp aps).2.2 = (fuzzyMatch fs thr sp.text x.text).2 := by
            rw [show bestCandidate fs thr sp aps =
              ((fuzzyMatch fs thr sp.text x.text).1, some x,
                (fuzzyMatch fs thr sp.text x.text).2) from hb]
          cases hsp
          constructor
          · exact hge
          · rw [hb2]
            apply fuzzyMatch_band_of_ge
            rw [← hb1]
            exact hge
        · rw [if_neg hM] at hb
          rw [hb] at hge
          omega

/-- Witness for C10 at a concrete emitted match. -/
theorem emitted_match_band_witness :
    (1 : Nat) ≤ 85 ∧
    (⟨entEx, some entEx, 100, "exact"⟩ : EntityMatch) ∈
      matchEntities fsEx 85 [("KPI", [entEx])] [("KPI", [entEx])] ∧
    85 ≤ (⟨entEx, some entEx, 100, "exact"⟩ : EntityMatch).match_score ∧
    ((⟨entEx, some entEx, 100, "exact"⟩ : EntityMatch).match_type = "exact" ∨
     (⟨entEx, some entEx, 100, "exact"⟩ : EntityMatch).match_type = "fuzzy") := by
  have hfm : fuzzyMatch fsEx 85 entEx.text entEx.text = (100, "exact") := by
    unfold fuzzyMatch
    rw [if_pos rfl]
  have hcomp : matchEntities fsEx 85 [("KPI", [entEx])] [("KPI", [entEx])]
      = [⟨entEx, some entEx, 100, "exact"⟩] := by
    simp [matchEntities, typeMatches, lookup_cons_eq, matchesForLists, bestCandidate,
      bestScanStep, hfm]
  have hmem : (⟨entEx, some entEx, 100, "exact"⟩ : EntityMatch) ∈
      matchEntities fsEx 85 [("KPI", [entEx])] [("KPI", [entEx])] := by
    rw [hcomp]
    simp
  exact ⟨by norm_num, hmem,
    emitted_match_band fsEx 85 [("KPI", [entEx])] [("KPI", [entEx])] (by norm_num) _ hmem⟩

/-! ## C2: diminishing returns in the impact simulator -/

/-- A non-entity proposal's step is the improvements bump at its objective. -/
theorem impStep_nonentity (m : List (String × ℝ)) (p : ActionProposal)
    (hne : isEntityTracking p.objective_id = false) :
    impStep m p = bumpImp m p.objective_id := by
  simp [impStep, hne]

/-- Bumping the single-entry map advances the accumulator one step. -/
theorem bumpImp_single (o : String) (a : ℝ) :
    bumpImp [(o, a)] o = [(o, accStepR a)] := by
  unfold bumpImp setImp accStepR
  rw [lookup_cons_eq, if_pos rfl, if_pos rfl]
  simp

/-- Folding same-objective non-entity proposals from an accumulator state. -/
theorem improvementsFold_shift (o : String) :
    ∀ (ps : List ActionProposal) (k : Nat),
      (∀ p ∈ ps, p.objective_id = o ∧ isEntityTracking p.objective_id = false) →
      ps.foldl impStep [(o, accAfterN k)] = [(o, accAfterN (k + ps.length))] := by
  intro ps
  induction ps with
  | nil =>
    intro k h
    simp
  | cons p ps ih =>
    intro k h
    have hp := h p (by simp)
    rw [List.foldl_cons, impStep_nonentity _ _ hp.2, hp.1, bumpImp_single,
      show accStepR (accAfterN k) = accAfterN (k + 1) from rfl,
      ih (k + 1) (fun q hq => h q (by simp [hq]))]
    have hlen : k + 1 + ps.length = k + (p :: ps).length := by
      simp [List.length_cons]
      omega
    rw [hlen]

/-- For a nonempty run of proposals all targeting the same (non-entity)
objective, the improvements map holds that objective's accumulator after as
many steps as there are proposals. -/
theorem improvementsFold_same (o : String) (ps : List ActionProposal)
    (h : ∀ p ∈ ps, p.objective_id = o ∧ isEntityTracking p.objective_id = false) :
    List.lookup o (improvementsFold ps) =
      if ps.length = 0 then none else some (accAfterN ps.length) := by
  cases ps with
  | nil => simp [improvementsFold]
  | cons p ps =>
    unfold improvementsFold
    have hp := h p (by simp)
    rw [List.foldl_cons, impStep_nonentity _ _ hp.2, hp.1,
      show bumpImp ([] : List (String × ℝ)) o = [(o, accAfterN 1)] from rfl,
      improvementsFold_shift o ps 1 (fun q hq => h q (by simp [hq])),
      lookup_cons_eq, if_pos rfl]
    rw [if_neg (by simp)]
    have hlen : 1 + ps.length = (p :: ps).length := by
      simp [List.length_cons]
      omega
    rw [hlen]

/-- The accumulator after one proposal: 12 points. -/
theorem accAfterN_one : accAfterN 1 = 12 := by
  show accStepR (accAfterN 0) = 12
  show (0 : ℝ) + 12.0 * (0.7 : ℝ) ^ ((0 : ℝ) / 12.0) = 12
  rw [show ((0 : ℝ) / 12.0) = 0 by norm_num, Real.rpow_zero]
  norm_num

/-- The accumulator after two proposals: 12 + 8.4 = 20.4 points. -/
theorem accAfterN_two : accAfterN 2 = 20.4 := by
  show accStepR (accAfterN 1) = 20.4
  rw [show accStepR (accAfterN 1)
      = accAfterN 1 + 12.0 * (0.7 : ℝ) ^ (accAfterN 1 / 12.0) from rfl,
    accAfterN_one, show ((12 : ℝ) / 12.0) = 1 by norm_num, Real.rpow_one]
  norm_num

/-- The accumulator after three proposals: the exponent is 20.4/12 = 1.7, not
the proposal index 2. -/
theorem accAfterN_three : accAfterN 3 = 20.4 + 12.0 * (0.7 : ℝ) ^ (1.7 : ℝ) := by
  show accStepR (accAfterN 2) = _
  rw [show accStepR (accAfterN 2)
      = accAfterN 2 + 12.0 * (0.7 : ℝ) ^ (accAfterN 2 / 12.0) from rfl,
    accAfterN_two, show ((20.4 : ℝ) / 12.0) = 1.7 by norm_num]

/-- `0.7 ^ 1.7` strictly exceeds `0.7 ^ 2 = 0.49`. -/
theorem rpow_seventeen_tenths_gt : (0.49 : ℝ) < (0.7 : ℝ) ^ (1.7 : ℝ) := by
  have hgt : (0.7 : ℝ) ^ (2 : ℝ) < (0.7 : ℝ) ^ (1.7 : ℝ) :=
    Real.rpow_lt_rpow_of_exponent_gt (by norm_num) (by norm_num) (by norm_num)
  have h49 : (0.7 : ℝ) ^ (2 : ℝ) = 0.49 := by
    rw [show ((2 : ℝ)) = ((2 : Nat) : ℝ) by norm_num, Real.rpow_natCast]
    norm_num
  rw [h49] at hgt
  exact hgt

/-- C2 counterexample: three proposals on one objective do not accumulate
12 + 8.4 + 5.88 = 26.28 points; the third contribution is 12·0.7^1.7 ≈ 6.54,
because the code's exponent is accumulated/12, not the proposal index. -/
theorem simulate_impact_diminishing_cex :
    List.lookup "obj_1" (improvementsFold [pEx, pEx, pEx])
      ≠ some ((12.0 : ℝ) + 8.4 + 5.88) := by
  have hall : ∀ p ∈ [pEx, pEx, pEx], p.objective_id = "obj_1" ∧
      isEntityTracking p.objective_id = false := by
    intro p hp
    have : p = pEx := by
      simp only [List.mem_cons, List.not_mem_nil, or_false] at hp
      rcases hp with h | h | h <;> exact h
    subst this
    exact ⟨rfl, by decide⟩
  rw [improvementsFold_same "obj_1" _ hall]
  rw [if_neg (by simp)]
  intro hEq
  injection hEq with hEq
  rw [show ([pEx, pEx, pEx] : List ActionProposal).length = 3 by simp,
    accAfterN_three] at hEq
  have := rpow_seventeen_tenths_gt
  nlinarith [this]

/-- C2 amended: the n-th same-objective proposal (0-indexed) contributes
`12.0 · 0.7 ^ (A_n / 12)` where `A_n` is the improvement already accumulated
for that objective (`A_0 = 0`, `A_(n+1) = A_n + contribution_n`); the first two
contributions are 12.0 and 8.4 as the claim says, but the third is
`12·0.7^1.7`, not 5.88. -/
theorem simulate_impact_diminishing_amended (o : String) (ps : List ActionProposal)
    (hall : ∀ p ∈ ps, p.objective_id = o ∧ isEntityTracking p.objective_id = false)
    (hne : ps ≠ []) :
    List.lookup o (improvementsFold ps) = some (accAfterN ps.length) ∧
    (∀ n : Nat, accAfterN (n + 1) - accAfterN n
      = 12.0 * (0.7 : ℝ) ^ (accAfterN n / 12.0)) ∧
    accAfterN 1 - accAfterN 0 = 12 ∧
    accAfterN 2 - accAfterN 1 = 8.4 ∧
    accAfterN 3 - accAfterN 2 = 12.0 * (0.7 : ℝ) ^ (1.7 : ℝ) := by
  refine ⟨?_, ?_, ?_, ?_, ?_⟩
  · rw [improvementsFold_same o ps hall,
      if_neg (by have := List.length_pos.mpr hne; omega)]
  · intro n
    show accStepR (accAfterN n) - accAfterN n = _
    show accAfterN n + 12.0 * (0.7 : ℝ) ^ (accAfterN n / 12.0) - accAfterN n = _
    ring
  · rw [accAfterN_one]
    show (12 : ℝ) - 0 = 12
    norm_num
  · rw [accAfterN_two, accAfterN_one]
    norm_num
  · rw [accAfterN_three, accAfterN_two]
    ring

/-- Witness for the amended C2 theorem: three copies of a concrete proposal on
objective "obj_1". -/
theorem simulate_impact_diminishing_amended_witness :
    (∀ p ∈ [pEx, pEx, pEx], p.objective_id = "obj_1" ∧
      isEntityTracking p.objective_id = false) ∧
    ([pEx, pEx, pEx] : List ActionProposal) ≠ [] ∧
    (List.lookup "obj_1" (improvementsFold [pEx, pEx, pEx])
      = some (accAfterN ([pEx, pEx, pEx] : List ActionProposal).length) ∧
    (∀ n : Nat, accAfterN (n + 1) - accAfterN n
      = 12.0 * (0.7 : ℝ) ^ (accAfterN n / 12.0)) ∧
    accAfterN 1 - accAfterN 0 = 12 ∧
    accAfterN 2 - accAfterN 1 = 8.4 ∧
    accAfterN 3 - accAfterN 2 = 12.0 * (0.7 : ℝ) ^ (1.7 : ℝ)) := by
  have hall : ∀ p ∈ [pEx, pEx, pEx], p.objective_id = "obj_1" ∧
      isEntityTracking p.objective_id = false := by
    intro p hp
    have : p = pEx := by
      simp only [List.mem_cons, List.not_mem_nil, or_false] at hp
      rcases hp with h | h | h <;> exact h
    subst this
    exact ⟨rfl, by decide⟩
  exact ⟨hall, by simp,
    simulate_impact_diminishing_amended "obj_1" [pEx, pEx, pEx] hall (by simp)⟩

/-! ## C3: impact projection rules -/

/-- C3: every affected objective projects to `min(current + improvement, 100)`
(never above 100, with the reported improvement the capped delta); with no
entity-tracking proposals the overall projection adds the sum of per-objective
deltas divided by the total number of objectives, capped at 100; with only
entity-tracking proposals the overall delta is `entity_tracking_improvement *
0.40` (the engine's default entity weight), with no division by objective
count, capped at 100. -/
theorem simulate_impact_projection (r : AnalysisResults)
    (ps1 ps2 : List ActionProposal)
    (h1 : entityImprovementOf ps1 = 0)
    (h2 : improvementsFold ps2 = [])
    (h2e : 0 < entityImprovementOf ps2)
    (hn : 0 < r.objective_synchronizations.length) :
    (∀ (ps : List ActionProposal), ∀ e ∈ (simulateImpact r ps).affected_objectives,
      e.projected_score ≤ 100 ∧ e.improvement = e.projected_score - e.current_score) ∧
    (∀ o ∈ r.objective_synchronizations, ∀ v : ℝ,
      List.lookup o.objective_id (improvementsFold ps1) = some v →
      (⟨o.objective_title, ((o.combined_score : ℚ) : ℝ),
        min (((o.combined_score : ℚ) : ℝ) + v) 100,
        min (((o.combined_score : ℚ) : ℝ) + v) 100 - ((o.combined_score : ℚ) : ℝ)⟩ :
          AffectedEntry) ∈ (simulateImpact r ps1).affected_objectives) ∧
    ((simulateImpact r ps1).affected_objectives ≠ [] →
      (simulateImpact r ps1).projected_score
        = min (((r.overall_score : ℚ) : ℝ) +
            ((simulateImpact r ps1).affected_objectives.map (fun e => e.improvement)).sum
              / (r.objective_synchronizations.length : ℝ)) 100) ∧
    ((simulateImpact r ps2).projected_score
      = min (((r.overall_score : ℚ) : ℝ) + entityImprovementOf ps2 * 0.40) 100) := by
  refine ⟨?_, ?_, ?_, ?_⟩
  · intro ps e he
    simp only [simulateImpact] at he
    split_ifs at he with hE
    · rcases List.mem_append.mp he with hm | hm
      · obtain ⟨o, _, ho⟩ := List.mem_filterMap.mp hm
        rcases hlk : List.lookup o.objective_id (improvementsFold ps) with _ | imp
        · rw [hlk] at ho
          cases ho
        · rw [hlk] at ho
          injection ho with ho
          subst ho
          exact ⟨min_le_right _ _, rfl⟩
      · rcases List.mem_singleton.mp hm with rfl
        exact ⟨min_le_right _ _, rfl⟩
    · obtain ⟨o, _, ho⟩ := List.mem_filterMap.mp he
      rcases hlk : List.lookup o.objective_id (improvementsFold ps) with _ | imp
      · rw [hlk] at ho
        cases ho
      · rw [hlk] at ho
        injection ho with ho
        subst ho
        exact ⟨min_le_right _ _, rfl⟩
  · intro o ho v hv
    simp only [simulateImpact, h1, lt_self_iff_false, if_false]
    exact List.mem_filterMap.mpr ⟨o, ho, by rw [hv]⟩
  · intro haff
    simp only [simulateImpact, h1, lt_self_iff_false, if_false] at haff ⊢
    have himps : improvementsFold ps1 ≠ [] := by
      intro hemp
      apply haff
      apply List.filterMap_eq_nil_iff.mpr
      intro o _
      rw [hemp]
      rfl
    rw [if_neg (by simpa using haff), if_neg (by simpa using himps), if_pos hn]
  · simp only [simulateImpact, h2, if_pos h2e]
    have hobj : (r.objective_synchronizations.filterMap (fun o =>
        match List.lookup o.objective_id ([] : List (String × ℝ)) with
        | none => none
        | some imp =>
          some (⟨o.objective_title, ((o.combined_score : ℚ) : ℝ),
            min (((o.combined_score : ℚ) : ℝ) + imp) 100,
            min (((o.combined_score : ℚ) : ℝ) + imp) 100 - ((o.combined_score : ℚ) : ℝ)⟩ :
              AffectedEntry))) = [] := by
      apply List.filterMap_eq_nil_iff.mpr
      intro o _
      rfl
    rw [hobj]
    rw [if_neg (by simp), if_pos (by simp)]

/-- Witness for C3: one objective at combined score 95 receiving one 12-point
proposal projects to exactly 100; an entity-tracking-only proposal set moves
the overall score by `8.0 * 0.40` with no division. -/
theorem simulate_impact_projection_witness :
    entityImprovementOf [pEx] = 0 ∧
    improvementsFold [peEx] = [] ∧
    0 < entityImprovementOf [peEx] ∧
    0 < rEx.objective_synchronizations.length ∧
    ((∀ (ps : List ActionProposal), ∀ e ∈ (simulateImpact rEx ps).affected_objectives,
      e.projected_score ≤ 100 ∧ e.improvement = e.projected_score - e.current_score) ∧
    (∀ o ∈ rEx.objective_synchronizations, ∀ v : ℝ,
      List.lookup o.objective_id (improvementsFold [pEx]) = some v →
      (⟨o.objective_title, ((o.combined_score : ℚ) : ℝ),
        min (((o.combined_score : ℚ) : ℝ) + v) 100,
        min (((o.combined_score : ℚ) : ℝ) + v) 100 - ((o.combined_score : ℚ) : ℝ)⟩ :
          AffectedEntry) ∈ (simulateImpact rEx [pEx]).affected_objectives) ∧
    ((simulateImpact rEx [pEx]).affected_objectives ≠ [] →
      (simulateImpact rEx [pEx]).projected_score
        = min (((rEx.overall_score : ℚ) : ℝ) +
            ((simulateImpact rEx [pEx]).affected_objectives.map (fun e => e.improvement)).sum
              / (rEx.objective_synchronizations.length : ℝ)) 100) ∧
    ((simulateImpact rEx [peEx]).projected_score
      = min (((rEx.overall_score : ℚ) : ℝ) + entityImprovementOf [peEx] * 0.40) 100)) ∧
    (⟨"Objective One", (95 : ℝ), 100, 5⟩ : AffectedEntry) ∈
      (simulateImpact rEx [pEx]).affected_objectives := by
  have h1 : entityImprovementOf [pEx] = 0 := by
    simp [entityImprovementOf, show isEntityTracking pEx.objective_id = false by decide]
  have h2 : improvementsFold [peEx] = [] := by
    simp [improvementsFold, impStep, show isEntityTracking peEx.objective_id = true by decide]
  have h2e : 0 < entityImprovementOf [peEx] := by
    simp [entityImprovementOf, show isEntityTracking peEx.objective_id = true by decide]
    norm_num
  have hn : 0 < rEx.objective_synchronizations.length := by simp [rEx]
  have main := simulate_impact_projection rEx [pEx] [peEx] h1 h2 h2e hn
  refine ⟨h1, h2, h2e, hn, main, ?_⟩
  have hlk : List.lookup "obj_1" (improvementsFold [pEx]) = some 12 := by
    rw [improvementsFold_same "obj_1" [pEx]
      (by intro p hp
          simp only [List.mem_singleton] at hp
          subst hp
          exact ⟨rfl, by decide⟩)]
    rw [if_neg (by simp)]
    rw [show ([pEx] : List ActionProposal).length = 1 by simp, accAfterN_one]
  have hB := main.2.1 oEx (by simp [rEx]) 12
    (by rw [show oEx.objective_id = "obj_1" from rfl]; exact hlk)
  have hentry : (⟨oEx.objective_title, ((oEx.combined_score : ℚ) : ℝ),
      min (((oEx.combined_score : ℚ) : ℝ) + 12) 100,
      min (((oEx.combined_score : ℚ) : ℝ) + 12) 100 - ((oEx.combined_score : ℚ) : ℝ)⟩ :
        AffectedEntry) = ⟨"Objective One", (95 : ℝ), 100, 5⟩ := by
    rw [show oEx.objective_title = "Objective One" from rfl,
      show oEx.combined_score = (95 : ℚ) from rfl]
    have hmin : min (((95 : ℚ) : ℝ) + 12) 100 = 100 := by
      rw [min_eq_right]
      norm_num
    rw [hmin]
    norm_num
  rw [← hentry]
  exact hB

end StratSync
